import Mathlib

/-!
Shallow embedding of the spam classification core of
`whatsapp-spam-filter` (src/index.js).

Text is handled as `List Char`; the JavaScript `String.prototype.includes`
is substring containment (`List.isInfixOf`), `toLowerCase` is a `Char.toLower`
map (all configured patterns are ASCII).  The group-invite regular expression
`chat\.whatsapp\.com\/[A-Za-z0-9]{20,}` (flags `gi`, with `lastIndex` reset
immediately after the test, so the test is stateless) is embedded as an
explicit matcher.  The external AI provider call together with the JSON
extraction of its reply is modelled as an oracle (`AIOutcome`): the repository
code only dispatches on whether the call threw, whether a brace-delimited
region was found, whether `JSON.parse` succeeded, and on the parsed fields,
which the oracle enumerates; absent fields (JavaScript `undefined`) are
`Option.none`.
-/

namespace SpamFilter

/-- JavaScript `s.includes(sub)`: `sub` occurs contiguously in `s`. -/
def jsIncludes (s sub : List Char) : Bool :=
  s.tails.any (fun t => sub.isPrefixOf t)

/-- JavaScript `toLowerCase`, restricted to ASCII as all patterns are ASCII. -/
def lowerL (l : List Char) : List Char :=
  l.map Char.toLower

/-- The literal part of `SPAM_PATTERNS.groupInviteRegex`, lowercased. -/
def inviteHost : List Char :=
  "chat.whatsapp.com/".toList

/-- Case-insensitive literal match: strip `pat` from the front of `l`. -/
def stripCI : List Char → List Char → Option (List Char)
  | [], rest => some rest
  | _ :: _, [] => none
  | p :: ps, c :: cs => if c.toLower == p then stripCI ps cs else none

/-- Does `chat.whatsapp.com/` followed by at least 20 ASCII alphanumerics
start here?  (`[A-Za-z0-9]{20,}` of the regex.) -/
def inviteAt (l : List Char) : Bool :=
  match stripCI inviteHost l with
  | none => false
  | some rest => decide (20 ≤ (rest.takeWhile Char.isAlphanum).length)

/-- Embedding of `SPAM_PATTERNS.groupInviteRegex.test(message)` (src/index.js line 149):
the regex matches somewhere in the message, case-insensitively. -/
def testGroupInviteRegex (message : String) : Bool :=
  message.toList.tails.any inviteAt

/-- Transcription of `SPAM_PATTERNS.spamGroupKeywords` (src/index.js lines 101-124). -/
def spamGroupKeywords : List String :=
  ["trading", "forex", "fx signal", "trade signal", "pip", "lot size",
   "forex vip", "trading vip", "profit signal", "free signal",
   "crypto", "bitcoin", "btc", "eth", "binance", "coinbase", "nft",
   "token", "airdrop", "pump", "moonshot", "100x", "1000x",
   "crypto vip", "bitcoin signal", "crypto signal",
   "investment", "invest now", "guaranteed profit", "daily profit",
   "passive income", "financial freedom", "get rich", "make money",
   "earn money", "income opportunity", "profit guaranteed",
   "training", "course", "masterclass", "webinar", "free class",
   "learn trading", "trading course", "forex course", "crypto course",
   "mentorship", "coaching", "academy",
   "mlm", "network marketing", "referral bonus", "join my team",
   "business opportunity", "work from home", "be your own boss",
   "betting", "casino", "gambling", "slot", "jackpot", "lucky draw",
   "dating", "singles", "hookup", "adult", "18+"]

/-- Transcription of `SPAM_PATTERNS.highConfidenceSpam` (src/index.js lines 127-138). -/
def highConfidenceSpam : List String :=
  ["join my trading group",
   "join my crypto group",
   "join my forex group",
   "vip signal group",
   "free trading signals",
   "guaranteed returns",
   "double your money",
   "100% profit",
   "join and earn",
   "click link to join"]

/-- A detection verdict `{isSpam, confidence, reason}` with all fields
present (every rule-based path of the source sets all three). -/
structure SpamVerdict where
  isSpam : Bool
  confidence : Int
  reason : String
deriving Repr, DecidableEq

/-- The first high-confidence phrase contained in the lowercased message:
the `for` loop of src/index.js lines 154-162 returns on the first hit. -/
def findHighConfidencePhrase (message : String) : Option String :=
  highConfidenceSpam.find? (fun phrase => jsIncludes (lowerL message.toList) phrase.toList)

/-- The vocabulary terms contained in the lowercased message
(`SPAM_PATTERNS.spamGroupKeywords.filter(...)`, computed identically at
src/index.js lines 166-168 and 188-190; the filter is pure so both
computations agree). -/
def matchedVocab (message : String) : List String :=
  spamGroupKeywords.filter (fun keyword => jsIncludes (lowerL message.toList) (lowerL keyword.toList))

/-- Embedding of `detectSpamGroupInvite` (src/index.js lines 145-201).  The source nests
the two invite-link branches inside `if (hasGroupInvite)` and then falls
through to the density check; the flattened conditions below cover the same
cases because a fall-through from the invite block has fewer than 1 matched
keyword or no invite link. -/
def detectSpamGroupInvite (message : String) : SpamVerdict :=
  let hasGroupInvite := testGroupInviteRegex message
  match findHighConfidencePhrase message with
  | some phrase =>
      { isSpam := true, confidence := 95,
        reason := "High-confidence spam phrase: \"" ++ phrase ++ "\"" }
  | none =>
      let matchedKeywords := matchedVocab message
      if hasGroupInvite && decide (2 ≤ matchedKeywords.length) then
        { isSpam := true, confidence := 90,
          reason := "Group invite with spam keywords: " ++
            String.intercalate ", " (matchedKeywords.take 3) }
      else if hasGroupInvite && decide (matchedKeywords.length = 1) then
        { isSpam := true, confidence := 75,
          reason := "Group invite with suspicious keyword: " ++ matchedKeywords.headD "" }
      else if decide (3 ≤ matchedKeywords.length) then
        { isSpam := true, confidence := 80,
          reason := "Multiple spam indicators: " ++
            String.intercalate ", " (matchedKeywords.take 3) }
      else
        { isSpam := false, confidence := 0, reason := "No spam patterns detected" }

/-- The two AI backends of src/index.js. -/
inductive Provider
  | anthropic
  | gemini
deriving Repr, DecidableEq

/-- The configuration fields of `CONFIG` and the module-level client state
that `isSpamMessage` and `handleMessage` read (src/index.js lines 27-63).
`anthropic` and `gemini` record whether the corresponding client object is
non-null. -/
structure Config where
  customSpamKeywords : List String
  useAI : Bool
  aiProvider : Option Provider
  anthropic : Bool
  gemini : Bool
  dryRun : Bool
  monitoredGroups : List String
deriving Repr

/-- Outcome of matching `/\x7b[\s\S]*\x7d/` on the provider reply and
running `JSON.parse` on the match (src/index.js lines 302-310), as an
oracle over the externally produced reply text: `noJson` when the regex
finds no match, `malformed` when `JSON.parse` throws, `parsed` with the
relevant fields of the resulting object (`none` = the field is absent,
i.e. JavaScript `undefined`; numeric fields are taken integer-valued). -/
inductive ParseOutcome
  | noJson
  | malformed
  | parsed (isSpam : Option Bool) (confidence : Option Int) (reason : Option String)
deriving Repr, DecidableEq

/-- Outcome of the awaited provider call: it either throws (caught at
src/index.js line 320) or returns reply text, summarised by how the
parsing code reacts to it. -/
inductive AIOutcome
  | failure
  | content (p : ParseOutcome)
deriving Repr, DecidableEq

/-- A verdict as returned by `isSpamMessage`: on the parsed-AI path the
`confidence` and `reason` fields are copied from the parsed object and may
be absent (`undefined`), hence `Option`; `isSpam` is the truthiness of the
returned value, which is all the caller ever uses. -/
structure JSVerdict where
  isSpam : Bool
  confidence : Option Int
  reason : Option String
deriving Repr, DecidableEq

/-- A fully populated verdict as a `JSVerdict`. -/
def SpamVerdict.toJS (v : SpamVerdict) : JSVerdict :=
  { isSpam := v.isSpam, confidence := some v.confidence, reason := some v.reason }

/-- JavaScript truthiness of `result.isSpam` (absent = `undefined`, falsy). -/
def truthyB : Option Bool → Bool
  | none => false
  | some b => b

/-- JavaScript `result.confidence >= 70` (`undefined >= 70` is `false`). -/
def jsGE70 : Option Int → Bool
  | none => false
  | some c => decide (70 ≤ c)

/-- The object built from a parsed reply (src/index.js lines 310-315) or
the parse-error fallbacks (lines 304-307 and 316-319). -/
def parseAIContent : ParseOutcome → JSVerdict
  | .noJson => SpamVerdict.toJS ⟨false, 0, "Parse error"⟩
  | .malformed => SpamVerdict.toJS ⟨false, 0, "Parse error"⟩
  | .parsed is conf rs =>
      { isSpam := truthyB is && jsGE70 conf, confidence := conf, reason := rs }

/-- The `try` block around the provider call: a thrown call is caught and
mapped to the API-error verdict (src/index.js lines 320-323). -/
def callAI : AIOutcome → JSVerdict
  | .failure => SpamVerdict.toJS ⟨false, 0, "API error"⟩
  | .content p => parseAIContent p

/-- Transcription of `MAX_CHECKS_PER_MINUTE` (src/index.js line 87). -/
def MAX_CHECKS_PER_MINUTE : Nat := 30

/-- The inline rate admission gate of src/index.js lines 284-288: deny and
leave the counter unchanged at the ceiling, otherwise admit and increment. -/
def admitCheck (checksThisMinute : Nat) : Bool × Nat :=
  if MAX_CHECKS_PER_MINUTE ≤ checksThisMinute then (false, checksThisMinute)
  else (true, checksThisMinute + 1)

/-- The `setInterval` callback (src/index.js lines 91-93): the time-triggered
window reset zeroes the counter whatever its value. -/
def resetWindow (_ : Nat) : Nat := 0

/-- Iterate the gate: `n` consecutive calls from counter `c` give the admission decisions in
order, and the final counter. -/
def runGate : Nat → Nat → List Bool × Nat
  | 0, c => ([], c)
  | n + 1, c =>
      let r := admitCheck c
      let rest := runGate n r.2
      (r.1 :: rest.1, rest.2)

/-- Embedding of `isSpamMessage` (src/index.js lines 261-324), with the mutable counter
threaded explicitly: takes the counter value before the call and returns the
verdict together with the counter value after the call.  The sender and
group names only parameterise the prompt sent to the provider, whose reply
is already abstracted by the `AIOutcome` oracle, so they are omitted. -/
def isSpamMessage (cfg : Config) (checksThisMinute : Nat) (ai : AIOutcome)
    (message : String) : JSVerdict × Nat :=
  let lowerMessage := lowerL message.toList
  match cfg.customSpamKeywords.find?
      (fun keyword => jsIncludes lowerMessage (lowerL keyword.toList)) with
  | some keyword =>
      (SpamVerdict.toJS ⟨true, 100, "Contains blocked keyword: " ++ keyword⟩,
        checksThisMinute)
  | none =>
      let ruleBasedResult := detectSpamGroupInvite message
      if ruleBasedResult.isSpam then
        (SpamVerdict.toJS ruleBasedResult, checksThisMinute)
      else if !cfg.useAI || (!cfg.anthropic && !cfg.gemini) then
        (SpamVerdict.toJS ruleBasedResult, checksThisMinute)
      else if decide (MAX_CHECKS_PER_MINUTE ≤ checksThisMinute) then
        (SpamVerdict.toJS ⟨false, 0, "Rate limited - using rule-based only"⟩,
          checksThisMinute)
      else
        let checks := checksThisMinute + 1
        if cfg.aiProvider == some Provider.anthropic && cfg.anthropic then
          (callAI ai, checks)
        else if cfg.aiProvider == some Provider.gemini && cfg.gemini then
          (callAI ai, checks)
        else
          (SpamVerdict.toJS ruleBasedResult, checks)

/-- The fields of an incoming message event that `handleMessage` reads. -/
structure MsgEvent where
  isGroup : Bool
  chatId : String
  fromMe : Bool
  body : String
deriving Repr

/-- Embedding of `handleMessage` (src/index.js lines 345-404), reduced to its decision:
whether the deletion action `message.delete(true)` is requested.  `isAdmin`
is the result of the awaited `isBotAdmin(chat)` query; the AI oracle and
counter parameterise the embedded `isSpamMessage` call.  In dry-run mode
the deletion is skipped (only logged), so the result is `false`. -/
def handleMessage (cfg : Config) (checks : Nat) (ai : AIOutcome)
    (ev : MsgEvent) (isAdmin : Bool) : Bool :=
  if !ev.isGroup then false
  else if decide (0 < cfg.monitoredGroups.length)
      && !(cfg.monitoredGroups.contains ev.chatId) then false
  else if ev.fromMe then false
  else if ev.body == "" || ev.body.trim == "" then false
  else
    let spamCheck := (isSpamMessage cfg checks ai ev.body).1
    if spamCheck.isSpam then
      if !isAdmin then false
      else if cfg.dryRun then false
      else true
    else false

/-- Case analysis on the rule engine: its result is either the non-spam
default or a spam verdict with one of the four positive confidences. -/
theorem detect_result_cases (message : String) :
    detectSpamGroupInvite message = ⟨false, 0, "No spam patterns detected"⟩ ∨
    ((detectSpamGroupInvite message).isSpam = true ∧
      ((detectSpamGroupInvite message).confidence = 75 ∨
       (detectSpamGroupInvite message).confidence = 80 ∨
       (detectSpamGroupInvite message).confidence = 90 ∨
       (detectSpamGroupInvite message).confidence = 95)) := by
  unfold detectSpamGroupInvite
  split
  · right; exact ⟨rfl, by simp⟩
  · dsimp only
    split
    · right; exact ⟨rfl, by simp⟩
    · split
      · right; exact ⟨rfl, by simp⟩
      · split
        · right; exact ⟨rfl, by simp⟩
        · left; rfl

/-- C10: for every input text, the Pattern Rule Engine returns a verdict
whose confidence is one of exactly 0, 75, 80, 90, 95, and isSpam is true
if and only if the confidence is positive; the non-spam result is always
the default verdict with isSpam false and confidence 0. -/
theorem C10_rule_engine_confidence_range (text : String) :
    ((detectSpamGroupInvite text).confidence = 0 ∨
     (detectSpamGroupInvite text).confidence = 75 ∨
     (detectSpamGroupInvite text).confidence = 80 ∨
     (detectSpamGroupInvite text).confidence = 90 ∨
     (detectSpamGroupInvite text).confidence = 95) ∧
    ((detectSpamGroupInvite text).isSpam = true ↔
      0 < (detectSpamGroupInvite text).confidence) ∧
    ((detectSpamGroupInvite text).isSpam = false →
      detectSpamGroupInvite text = ⟨false, 0, "No spam patterns detected"⟩) := by
  rcases detect_result_cases text with h | ⟨hs, hc⟩
  · rw [h]
    refine ⟨Or.inl rfl, ?_, fun _ => rfl⟩
    simp
  · refine ⟨?_, ?_, ?_⟩
    · tauto
    · constructor
      · intro _
        rcases hc with h | h | h | h <;> rw [h] <;> norm_num
      · intro _; exact hs
    · intro hfalse; rw [hs] at hfalse; cases hfalse

/-- The example text of spec section 8, bullet 3. -/
def c4text : String :=
  "Join my trading group https://chat.platform.com/AbCdEfGhIj1234567890 crypto signal guaranteed profit"

/-- C4 counterexample: on the example text the Pattern Rule Engine does not
return confidence 90, and no invite-link pattern is detected (the link host
is chat.platform.com, while the regex requires chat.whatsapp.com). -/
theorem C4_counterexample :
    (detectSpamGroupInvite c4text).confidence ≠ 90 ∧
    testGroupInviteRegex c4text = false := by decide

/-- C4 (amended): on the example text the Pattern Rule Engine returns
isSpam true with confidence 95 via the high-confidence phrase rule (the
text contains the phrase "join my trading group", which takes priority),
and the invite-link pattern is not detected, because the embedded link
host chat.platform.com does not match the chat.whatsapp.com regex. -/
theorem C4_amended_phrase_rule_fires :
    detectSpamGroupInvite c4text =
      ⟨true, 95, "High-confidence spam phrase: \"join my trading group\""⟩ ∧
    testGroupInviteRegex c4text = false := by decide

/-- C2: for every text with no high-confidence phrase match, the invite-link
co-occurrence rules and the vocabulary-density rule behave as specified:
invite link plus at least 2 distinct matched vocabulary terms gives
confidence 90 with the first 3 matched terms in the reason, invite link plus
exactly 1 matched term gives confidence 75, and at least 3 matched terms
without an invite link gives confidence 80. -/
theorem C2_pattern_rules (message : String)
    (hphrase : findHighConfidencePhrase message = none) :
    (testGroupInviteRegex message = true →
      2 ≤ (matchedVocab message).length →
      detectSpamGroupInvite message =
        ⟨true, 90, "Group invite with spam keywords: " ++
          String.intercalate ", " ((matchedVocab message).take 3)⟩) ∧
    (testGroupInviteRegex message = true →
      (matchedVocab message).length = 1 →
      detectSpamGroupInvite message =
        ⟨true, 75, "Group invite with suspicious keyword: " ++
          (matchedVocab message).headD ""⟩) ∧
    (testGroupInviteRegex message = false →
      3 ≤ (matchedVocab message).length →
      detectSpamGroupInvite message =
        ⟨true, 80, "Multiple spam indicators: " ++
          String.intercalate ", " ((matchedVocab message).take 3)⟩) := by
  unfold detectSpamGroupInvite
  rw [hphrase]
  dsimp only
  refine ⟨?_, ?_, ?_⟩
  · intro hinv hlen
    simp [hinv, hlen]
  · intro hinv hlen
    simp [hinv, hlen]
  · intro hinv hlen
    simp [hinv, hlen]

/-- C2 witness: a concrete invite-link message with two matched terms. -/
theorem C2_witness :
    findHighConfidencePhrase "crypto trading chat.whatsapp.com/AbCdEfGhIj1234567890" = none ∧
    detectSpamGroupInvite "crypto trading chat.whatsapp.com/AbCdEfGhIj1234567890" =
      ⟨true, 90, "Group invite with spam keywords: trading, crypto"⟩ :=
  ⟨by decide,
    ((C2_pattern_rules "crypto trading chat.whatsapp.com/AbCdEfGhIj1234567890"
        (by decide)).1 (by decide) (by decide)).trans (by decide)⟩

/-- C3: for every text containing a configured high-confidence phrase
(case-insensitive substring), the Pattern Rule Engine returns isSpam true
with confidence 95 for the first matching phrase, in strict priority over
the invite-link and vocabulary rules (the result is the phrase verdict
whatever else the text contains); and with no custom keywords configured
the orchestrator returns that verdict unchanged for every AI outcome and
every counter value, with the counter untouched (no AI involvement). -/
theorem C3_high_confidence_priority (message phrase : String)
    (h : findHighConfidencePhrase message = some phrase) :
    detectSpamGroupInvite message =
      ⟨true, 95, "High-confidence spam phrase: \"" ++ phrase ++ "\""⟩ ∧
    (∀ (cfg : Config) (checks : Nat) (ai : AIOutcome),
      cfg.customSpamKeywords = [] →
      isSpamMessage cfg checks ai message =
        (SpamVerdict.toJS
          ⟨true, 95, "High-confidence spam phrase: \"" ++ phrase ++ "\""⟩, checks)) := by
  have hd : detectSpamGroupInvite message =
      ⟨true, 95, "High-confidence spam phrase: \"" ++ phrase ++ "\""⟩ := by
    unfold detectSpamGroupInvite
    rw [h]
  refine ⟨hd, ?_⟩
  intro cfg checks ai hk
  unfold isSpamMessage
  rw [hk]
  simp [hd]

/-- C3 witness: a concrete phrase hit, at counter 7 with a failing AI. -/
theorem C3_witness :
    findHighConfidencePhrase "Totally guaranteed returns here" = some "guaranteed returns" ∧
    isSpamMessage ⟨[], false, none, false, false, false, []⟩ 7 AIOutcome.failure
        "Totally guaranteed returns here" =
      (SpamVerdict.toJS
        ⟨true, 95, "High-confidence spam phrase: \"guaranteed returns\""⟩, 7) :=
  ⟨by decide,
    (C3_high_confidence_priority "Totally guaranteed returns here" "guaranteed returns"
      (by decide)).2 ⟨[], false, none, false, false, false, []⟩ 7 AIOutcome.failure rfl⟩

/-- C1: whenever the first custom keyword whose lowercasing is contained in
the lowercased message exists (list order decides which one), the
orchestrator returns isSpam true, confidence 100, with a reason citing that
keyword, for every configuration, counter value, AI outcome and message
content, leaving the counter unchanged. -/
theorem C1_custom_keyword_precedence
    (cfg : Config) (checks : Nat) (ai : AIOutcome) (message keyword : String)
    (h : cfg.customSpamKeywords.find?
        (fun k => jsIncludes (lowerL message.toList) (lowerL k.toList)) = some keyword) :
    isSpamMessage cfg checks ai message =
      (SpamVerdict.toJS ⟨true, 100, "Contains blocked keyword: " ++ keyword⟩, checks) := by
  unfold isSpamMessage
  dsimp only
  rw [h]

/-- C1 witness: the first matching keyword of a two-keyword blocklist fires
on a message containing it in mixed case. -/
theorem C1_witness :
    (Config.mk ["free", "spam"] false none false false false []).customSpamKeywords.find?
        (fun k => jsIncludes (lowerL "Get FREE stuff".toList) (lowerL k.toList)) = some "free" ∧
    isSpamMessage ⟨["free", "spam"], false, none, false, false, false, []⟩ 3 AIOutcome.failure
        "Get FREE stuff" =
      (SpamVerdict.toJS ⟨true, 100, "Contains blocked keyword: free"⟩, 3) :=
  ⟨by decide,
    C1_custom_keyword_precedence ⟨["free", "spam"], false, none, false, false, false, []⟩
      3 AIOutcome.failure "Get FREE stuff" "free" (by decide)⟩

/-- When no custom keyword matches, the rule engine is negative, AI is
enabled with a live anthropic client and the counter is under the ceiling,
the orchestrator admits the call, increments the counter and returns the
result of the provider call. -/
theorem isSpamMessage_ai_path (cfg : Config) (checks : Nat) (ai : AIOutcome) (message : String)
    (hkw : cfg.customSpamKeywords.find?
        (fun k => jsIncludes (lowerL message.toList) (lowerL k.toList)) = none)
    (hrule : (detectSpamGroupInvite message).isSpam = false)
    (huse : cfg.useAI = true)
    (hprov : cfg.aiProvider = some Provider.anthropic)
    (hcl : cfg.anthropic = true)
    (hrate : checks < MAX_CHECKS_PER_MINUTE) :
    isSpamMessage cfg checks ai message = (callAI ai, checks + 1) := by
  unfold isSpamMessage
  dsimp only
  rw [hkw]
  simp [hrule, huse, hcl, hprov, Nat.not_le.mpr hrate]

/-- C5: for every successfully parsed provider response with all fields
present, the orchestrator verdict carries the parsed confidence and reason
unchanged, its isSpam is the parsed isSpam conjoined with the 70-threshold
test, so isSpam is true only if the response said true with confidence at
least 70, a confidence below 70 is forced to isSpam false with confidence
and reason preserved, and confidence exactly 70 with isSpam true is
accepted as spam. -/
theorem C5_ai_confidence_gate (cfg : Config) (checks : Nat) (message : String)
    (b : Bool) (c : Int) (r : String)
    (hkw : cfg.customSpamKeywords.find?
        (fun k => jsIncludes (lowerL message.toList) (lowerL k.toList)) = none)
    (hrule : (detectSpamGroupInvite message).isSpam = false)
    (huse : cfg.useAI = true)
    (hprov : cfg.aiProvider = some Provider.anthropic)
    (hcl : cfg.anthropic = true)
    (hrate : checks < MAX_CHECKS_PER_MINUTE) :
    isSpamMessage cfg checks
        (AIOutcome.content (ParseOutcome.parsed (some b) (some c) (some r))) message =
      ({ isSpam := b && decide (70 ≤ c), confidence := some c, reason := some r },
        checks + 1) ∧
    ((isSpamMessage cfg checks
        (AIOutcome.content (ParseOutcome.parsed (some b) (some c) (some r))) message).1.isSpam
          = true → b = true ∧ 70 ≤ c) ∧
    (c < 70 → (isSpamMessage cfg checks
        (AIOutcome.content (ParseOutcome.parsed (some b) (some c) (some r))) message).1 =
      { isSpam := false, confidence := some c, reason := some r }) ∧
    (b = true → c = 70 → (isSpamMessage cfg checks
        (AIOutcome.content (ParseOutcome.parsed (some b) (some c) (some r))) message).1.isSpam
          = true) := by
  have E := isSpamMessage_ai_path cfg checks
    (AIOutcome.content (ParseOutcome.parsed (some b) (some c) (some r))) message
    hkw hrule huse hprov hcl hrate
  refine ⟨E, ?_, ?_, ?_⟩
  · rw [E]
    simp [callAI, parseAIContent, truthyB, jsGE70]
  · intro hc
    rw [E]
    simp [callAI, parseAIContent, truthyB, jsGE70, not_le.mpr hc]
  · intro hb hc
    subst hb hc
    rw [E]
    simp [callAI, parseAIContent, truthyB, jsGE70]

/-- C5 witness: a parsed response with isSpam true and confidence 65 is
downgraded to isSpam false with confidence and reason preserved. -/
theorem C5_witness :
    isSpamMessage ⟨[], true, some Provider.anthropic, true, false, false, []⟩ 0
        (AIOutcome.content (ParseOutcome.parsed (some true) (some 65) (some "promo")))
        "hello" =
      ({ isSpam := false, confidence := some 65, reason := some "promo" }, 1) :=
  ((C5_ai_confidence_gate ⟨[], true, some Provider.anthropic, true, false, false, []⟩
      0 "hello" true 65 "promo" (by decide) (by decide) rfl rfl rfl (by decide)).1).trans
    (by decide)

/-- C6 counterexample: on the AI path a thrown provider call yields reason
"API error", not "provider error", and a reply without a JSON object yields
reason "Parse error", not "parse error"; a parsed object lacking all three
fields is not mapped to the parse-error verdict at all. -/
theorem C6_counterexample :
    (isSpamMessage ⟨[], true, some Provider.anthropic, true, false, false, []⟩ 0
        AIOutcome.failure "hello").1 = SpamVerdict.toJS ⟨false, 0, "API error"⟩ ∧
    ("API error" : String) ≠ "provider error" ∧
    (isSpamMessage ⟨[], true, some Provider.anthropic, true, false, false, []⟩ 0
        (AIOutcome.content ParseOutcome.noJson) "hello").1 =
      SpamVerdict.toJS ⟨false, 0, "Parse error"⟩ ∧
    ("Parse error" : String) ≠ "parse error" ∧
    (isSpamMessage ⟨[], true, some Provider.anthropic, true, false, false, []⟩ 0
        (AIOutcome.content (ParseOutcome.parsed none none none)) "hello").1 ≠
      SpamVerdict.toJS ⟨false, 0, "Parse error"⟩ := by decide

/-- C6 (amended): on the AI path, a reply without a JSON object or whose
JSON fails to parse yields the verdict with isSpam false, confidence 0 and
reason "Parse error"; a thrown provider call is caught and yields isSpam
false, confidence 0 and reason "API error"; a parsed object with absent
fields is passed through with falsy isSpam rather than treated as a parse
error; in the embedding every AI outcome produces a verdict (no fault
propagates) and no failing outcome yields isSpam true. -/
theorem C6_amended_error_containment (cfg : Config) (checks : Nat) (message : String)
    (hkw : cfg.customSpamKeywords.find?
        (fun k => jsIncludes (lowerL message.toList) (lowerL k.toList)) = none)
    (hrule : (detectSpamGroupInvite message).isSpam = false)
    (huse : cfg.useAI = true)
    (hprov : cfg.aiProvider = some Provider.anthropic)
    (hcl : cfg.anthropic = true)
    (hrate : checks < MAX_CHECKS_PER_MINUTE) :
    isSpamMessage cfg checks AIOutcome.failure message =
      (SpamVerdict.toJS ⟨false, 0, "API error"⟩, checks + 1) ∧
    isSpamMessage cfg checks (AIOutcome.content ParseOutcome.noJson) message =
      (SpamVerdict.toJS ⟨false, 0, "Parse error"⟩, checks + 1) ∧
    isSpamMessage cfg checks (AIOutcome.content ParseOutcome.malformed) message =
      (SpamVerdict.toJS ⟨false, 0, "Parse error"⟩, checks + 1) ∧
    (∀ (conf : Option Int) (rs : Option String),
      isSpamMessage cfg checks
          (AIOutcome.content (ParseOutcome.parsed none conf rs)) message =
        ({ isSpam := false, confidence := conf, reason := rs }, checks + 1)) := by
  refine ⟨?_, ?_, ?_, fun conf rs => ?_⟩ <;>
    rw [isSpamMessage_ai_path cfg checks _ message hkw hrule huse hprov hcl hrate] <;> rfl

/-- C6 witness: the three failure shapes at a concrete configuration. -/
theorem C6_witness :
    isSpamMessage ⟨[], true, some Provider.anthropic, true, false, false, []⟩ 0
        AIOutcome.failure "hello" =
      (SpamVerdict.toJS ⟨false, 0, "API error"⟩, 1) ∧
    isSpamMessage ⟨[], true, some Provider.anthropic, true, false, false, []⟩ 0
        (AIOutcome.content ParseOutcome.malformed) "hello" =
      (SpamVerdict.toJS ⟨false, 0, "Parse error"⟩, 1) :=
  let h := C6_amended_error_containment
    ⟨[], true, some Provider.anthropic, true, false, false, []⟩ 0 "hello"
    (by decide) (by decide) rfl rfl rfl (by decide)
  ⟨h.1, h.2.2.1⟩

/-- C7: the rate admission gate admits and increments strictly below the
ceiling of 30, denies and leaves the counter unchanged at or above it;
thirty consecutive calls from a fresh window are all admitted and leave the
counter at the ceiling, the next call is denied with the counter unchanged;
the time-triggered reset zeroes the counter whatever its value, after which
the next call is admitted from zero; and on the AI path the orchestrator
returns the rate-limited verdict, counter untouched, once the ceiling is
reached. -/
theorem C7_rate_gate_dynamics :
    (∀ k, k < MAX_CHECKS_PER_MINUTE → admitCheck k = (true, k + 1)) ∧
    (∀ c, MAX_CHECKS_PER_MINUTE ≤ c → admitCheck c = (false, c)) ∧
    runGate MAX_CHECKS_PER_MINUTE 0 =
      (List.replicate MAX_CHECKS_PER_MINUTE true, MAX_CHECKS_PER_MINUTE) ∧
    admitCheck (runGate MAX_CHECKS_PER_MINUTE 0).2 =
      (false, (runGate MAX_CHECKS_PER_MINUTE 0).2) ∧
    (∀ c, resetWindow c = 0) ∧
    admitCheck (resetWindow MAX_CHECKS_PER_MINUTE) = (true, 1) ∧
    (∀ (cfg : Config) (checks : Nat) (ai : AIOutcome) (message : String),
      cfg.customSpamKeywords = [] →
      (detectSpamGroupInvite message).isSpam = false →
      cfg.useAI = true →
      cfg.anthropic = true →
      MAX_CHECKS_PER_MINUTE ≤ checks →
      isSpamMessage cfg checks ai message =
        (SpamVerdict.toJS ⟨false, 0, "Rate limited - using rule-based only"⟩, checks)) := by
  refine ⟨?_, ?_, by decide, by decide, fun _ => rfl, by decide, ?_⟩
  · intro k hk
    unfold admitCheck
    rw [if_neg (Nat.not_le.mpr hk)]
  · intro c hc
    unfold admitCheck
    rw [if_pos hc]
  · intro cfg checks ai message hk hr hu ha hge
    unfold isSpamMessage
    dsimp only
    rw [hk]
    simp [hr, hu, ha, hge]

/-- The rule engine confidence is bounded by 0 and 100. -/
theorem detect_conf_bounds (message : String) :
    0 ≤ (detectSpamGroupInvite message).confidence ∧
    (detectSpamGroupInvite message).confidence ≤ 100 := by
  rcases detect_result_cases message with h | ⟨_, hc⟩
  · rw [h]
    norm_num
  · rcases hc with h | h | h | h <;> rw [h] <;> norm_num

/-- C8 counterexample: a successfully parsed provider response with
confidence 150 is passed through verbatim, so the verdict confidence
leaves the range 0 to 100. -/
theorem C8_counterexample :
    (isSpamMessage ⟨[], true, some Provider.anthropic, true, false, false, []⟩ 0
        (AIOutcome.content (ParseOutcome.parsed (some true) (some 150) (some "scam")))
        "hello").1.confidence = some 150 ∧
    ¬ ((150 : Int) ≤ 100) := by decide

/-- The AI outcome either is not a parsed object, or its parsed confidence
field is present and in the range 0 to 100. -/
def aiConfInRange : AIOutcome → Bool
  | AIOutcome.content (ParseOutcome.parsed _ (some c) _) => decide (0 ≤ c ∧ c ≤ 100)
  | AIOutcome.content (ParseOutcome.parsed _ none _) => false
  | _ => true

/-- C8 (amended): on every execution path, if the AI outcome is either not
reached, not a parsed object, or a parsed object whose confidence field is
an integer in the range 0 to 100, then the verdict returned by the
orchestrator carries a confidence that is an integer in the range 0 to 100;
on the successfully parsed path the confidence is whatever the response
contained, so the original invariant holds only under that hypothesis. -/
theorem C8_amended_confidence_range (cfg : Config) (checks : Nat) (ai : AIOutcome)
    (message : String) (h : aiConfInRange ai = true) :
    ∃ c : Int, (isSpamMessage cfg checks ai message).1.confidence = some c ∧
      0 ≤ c ∧ c ≤ 100 := by
  have hb := detect_conf_bounds message
  have hcall : ∃ c : Int, (callAI ai).confidence = some c ∧ 0 ≤ c ∧ c ≤ 100 := by
    cases ai with
    | failure => exact ⟨0, rfl, by norm_num⟩
    | content p =>
        cases p with
        | noJson => exact ⟨0, rfl, by norm_num⟩
        | malformed => exact ⟨0, rfl, by norm_num⟩
        | parsed is conf rs =>
            cases conf with
            | none => simp [aiConfInRange] at h
            | some c =>
                refine ⟨c, rfl, ?_⟩
                simpa [aiConfInRange] using h
  unfold isSpamMessage
  dsimp only
  cases hf : cfg.customSpamKeywords.find?
      (fun k => jsIncludes (lowerL message.toList) (lowerL k.toList)) with
  | some k => exact ⟨100, rfl, by norm_num⟩
  | none =>
      dsimp only
      split
      · exact ⟨(detectSpamGroupInvite message).confidence, rfl, hb⟩
      split
      · exact ⟨(detectSpamGroupInvite message).confidence, rfl, hb⟩
      split
      · exact ⟨0, rfl, by norm_num⟩
      split
      · exact hcall
      split
      · exact hcall
      · exact ⟨(detectSpamGroupInvite message).confidence, rfl, hb⟩

/-- C8 witness: an in-range parsed response at a concrete input. -/
theorem C8_witness :
    ∃ c : Int,
      (isSpamMessage ⟨[], true, some Provider.anthropic, true, false, false, []⟩ 0
        (AIOutcome.content (ParseOutcome.parsed (some true) (some 80) (some "ad")))
        "hello").1.confidence = some c ∧ 0 ≤ c ∧ c ≤ 100 :=
  C8_amended_confidence_range ⟨[], true, some Provider.anthropic, true, false, false, []⟩
    0 (AIOutcome.content (ParseOutcome.parsed (some true) (some 80) (some "ad")))
    "hello" (by decide)

/-- C9: when the privileged-member check is false the deletion action is
never requested, whatever the verdict, configuration, AI outcome or dry-run
setting; and a requested deletion implies the verdict was spam, the admin
check returned true, and dry-run is off. -/
theorem C9_privilege_gate (cfg : Config) (checks : Nat) (ai : AIOutcome)
    (ev : MsgEvent) (isAdmin : Bool) :
    (isAdmin = false → handleMessage cfg checks ai ev isAdmin = false) ∧
    (handleMessage cfg checks ai ev isAdmin = true →
      (isSpamMessage cfg checks ai ev.body).1.isSpam = true ∧
      isAdmin = true ∧ cfg.dryRun = false) := by
  constructor
  · intro ha
    subst ha
    unfold handleMessage
    split
    · rfl
    split
    · rfl
    split
    · rfl
    split
    · rfl
    dsimp only
    split
    · simp
    · rfl
  · intro ht
    unfold handleMessage at ht
    split at ht
    · cases ht
    split at ht
    · cases ht
    split at ht
    · cases ht
    split at ht
    · cases ht
    dsimp only at ht
    split at ht
    case _ hspam =>
      split at ht
      case _ hadm => cases ht
      case _ hadm =>
        split at ht
        · cases ht
        case _ hdry =>
          refine ⟨hspam, ?_, ?_⟩
          · simpa using hadm
          · simpa using hdry
    · cases ht

end SpamFilter
